import Mathlib

/-!
Verification of `cpp/include/raft/sparse/cusparse_wrappers.h` (raft).

The header is a dispatch-and-error-translation shim over cuSPARSE:
an error-decoding function `cusparse_error_to_string`, a checking macro
`CUSPARSE_TRY` (aliased `CUSPARSE_CHECK`) that throws `raft::cusparse_error`
on any non-success status, and per-type wrapper specializations
(`cusparsegthr`, `cusparsecoo2csr`, `cusparsecoosort_bufferSizeExt`,
`cusparsecoosortByRow`, `cusparsegemmi`) that bind a CUDA stream to the
cuSPARSE handle and invoke the precision-specific native routine.

Status codes are embedded as raw `Nat` values using the cuSPARSE ABI
numbering; the native cuSPARSE kernels are external to the repository, so
their effects are modelled from the specification (each such definition is
marked `Modelled from the spec:`), while their returned statuses are left
arbitrary via a `NativeEnv` record.  Each wrapper returns an event trace
recording, in order, the native calls it issued, so that ordering claims
(stream bound before the kernel is invoked, kernel never issued after a
failed bind) are directly expressible.
-/

/-- Status value of `CUSPARSE_STATUS_SUCCESS` (cuSPARSE ABI numbering). -/
def CUSPARSE_STATUS_SUCCESS : Nat := 0

/-- Status value of `CUSPARSE_STATUS_NOT_INITIALIZED`. -/
def CUSPARSE_STATUS_NOT_INITIALIZED : Nat := 1

/-- Status value of `CUSPARSE_STATUS_ALLOC_FAILED`. -/
def CUSPARSE_STATUS_ALLOC_FAILED : Nat := 2

/-- Status value of `CUSPARSE_STATUS_INVALID_VALUE`. -/
def CUSPARSE_STATUS_INVALID_VALUE : Nat := 3

/-- Status value of `CUSPARSE_STATUS_ARCH_MISMATCH`. -/
def CUSPARSE_STATUS_ARCH_MISMATCH : Nat := 4

/-- Status value of `CUSPARSE_STATUS_EXECUTION_FAILED`. -/
def CUSPARSE_STATUS_EXECUTION_FAILED : Nat := 6

/-- Status value of `CUSPARSE_STATUS_INTERNAL_ERROR`. -/
def CUSPARSE_STATUS_INTERNAL_ERROR : Nat := 7

/-- Status value of `CUSPARSE_STATUS_MATRIX_TYPE_NOT_SUPPORTED`. -/
def CUSPARSE_STATUS_MATRIX_TYPE_NOT_SUPPORTED : Nat := 8

/-- Embedding of `raft::sparse::detail::cusparse_error_to_string`
(cusparse_wrappers.h, lines 44-61), the pre-CUDA-10.1 `switch` branch: each
`_CUSPARSE_ERR_TO_STR(err)` case returns the stringified enumerator `#err`,
and the `default` case returns the sentinel `"CUSPARSE_STATUS_UNKNOWN"`.
(The `CUDART_VERSION >= 10100` branch of the source references an undeclared
identifier `status` and cannot compile, so the `switch` branch is the one
with defined behaviour.) -/
def cusparse_error_to_string (err : Nat) : String :=
  if err = CUSPARSE_STATUS_SUCCESS then "CUSPARSE_STATUS_SUCCESS"
  else if err = CUSPARSE_STATUS_NOT_INITIALIZED then "CUSPARSE_STATUS_NOT_INITIALIZED"
  else if err = CUSPARSE_STATUS_ALLOC_FAILED then "CUSPARSE_STATUS_ALLOC_FAILED"
  else if err = CUSPARSE_STATUS_INVALID_VALUE then "CUSPARSE_STATUS_INVALID_VALUE"
  else if err = CUSPARSE_STATUS_ARCH_MISMATCH then "CUSPARSE_STATUS_ARCH_MISMATCH"
  else if err = CUSPARSE_STATUS_EXECUTION_FAILED then "CUSPARSE_STATUS_EXECUTION_FAILED"
  else if err = CUSPARSE_STATUS_INTERNAL_ERROR then "CUSPARSE_STATUS_INTERNAL_ERROR"
  else if err = CUSPARSE_STATUS_MATRIX_TYPE_NOT_SUPPORTED then
    "CUSPARSE_STATUS_MATRIX_TYPE_NOT_SUPPORTED"
  else "CUSPARSE_STATUS_UNKNOWN"

/-- The status values the source `switch` names, paired with the canonical
name each `_CUSPARSE_ERR_TO_STR` case produces; the comparison table for the
decode claims. -/
def knownCusparseStatusTable : List (Nat × String) :=
  [(0, "CUSPARSE_STATUS_SUCCESS"),
   (1, "CUSPARSE_STATUS_NOT_INITIALIZED"),
   (2, "CUSPARSE_STATUS_ALLOC_FAILED"),
   (3, "CUSPARSE_STATUS_INVALID_VALUE"),
   (4, "CUSPARSE_STATUS_ARCH_MISMATCH"),
   (6, "CUSPARSE_STATUS_EXECUTION_FAILED"),
   (7, "CUSPARSE_STATUS_INTERNAL_ERROR"),
   (8, "CUSPARSE_STATUS_MATRIX_TYPE_NOT_SUPPORTED")]

/-- Embedding of `raft::cusparse_error` (cusparse_wrappers.h, lines 34-39).
The C++ type stores one message string, formatted by `CUSPARSE_TRY` as
`"cuSparse error encountered at: call=%s, Reason=%d:%s"` from exactly three
values: the stringified call expression, the raw numeric status, and the
decoded label.  The embedding records those three components. -/
structure cusparse_error where
  callText : String
  status : Nat
  label : String
deriving Repr, DecidableEq

/-- Embedding of the `CUSPARSE_TRY` macro (cusparse_wrappers.h, lines 75-85):
given the stringified call expression and the status the call produced, it
throws `raft::cusparse_error` when the status differs from
`CUSPARSE_STATUS_SUCCESS`, with the message built from the call text, the raw
status, and `cusparse_error_to_string status`; otherwise it has no effect.
A thrown C++ exception is modelled as `Except.error`. -/
def CUSPARSE_TRY (callText : String) (status : Nat) : Except cusparse_error Unit :=
  if CUSPARSE_STATUS_SUCCESS ≠ status then
    Except.error ⟨callText, status, cusparse_error_to_string status⟩
  else Except.ok ()

/-- Embedding of `CUSPARSE_CHECK`, the cuML-compatibility alias of
`CUSPARSE_TRY`. -/
def CUSPARSE_CHECK (callText : String) (status : Nat) : Except cusparse_error Unit :=
  CUSPARSE_TRY callText status

/-- Embedding of `cusparseHandle_t`: an opaque session handle whose only
state this layer touches is the execution stream currently bound to it. -/
structure cusparseHandle_t where
  boundStream : Option Nat
deriving Repr, DecidableEq

/-- The statuses (and the queried buffer size) the external cuSPARSE
capability returns to each native call; left arbitrary, since the library
may fail any call. -/
structure NativeEnv where
  setStreamStatus : Nat
  gthrStatus : Nat
  coo2csrStatus : Nat
  bufferSizeStatus : Nat
  bufferSize : Nat
  coosortStatus : Nat
  gemmiStatus : Nat
deriving Repr, DecidableEq

/-- One native cuSPARSE call issued by a wrapper; wrappers return the list
of calls they issued, in order. -/
inductive CusparseEvent where
  | setStream (stream : Nat)
  | gthr
  | coo2csr
  | coosortBufferSize
  | coosortByRow
  | gemmi
deriving Repr, DecidableEq

/-- Modelled from the spec: `cusparseSetStream` (external to the repository)
binds the given stream to the handle — a mutable side effect on the handle —
and returns a status code, supplied here by the environment. -/
def cusparseSetStream (env : NativeEnv) (handle : cusparseHandle_t) (stream : Nat) :
    cusparseHandle_t × Nat :=
  ({ boundStream := some stream }, env.setStreamStatus)

/-- Modelled from the spec: the native gather kernels `cusparseSgthr` and
`cusparseDgthr` (external to the repository) copy `nnz` elements from the
source into the destination according to the permutation, zero-based:
`vals_sorted[i] = vals[d_P[i]]`.  Out-of-range accesses are undefined in the
native library and are mapped to `default`. -/
def nativeGthr {α : Type} [Inhabited α] (nnz : Nat) (vals : List α) (d_P : List Nat) :
    List α :=
  (List.range nnz).map (fun i => vals.getD (d_P.getD i 0) default)

/-- Embedding of the `cusparsegthr` specializations (cusparse_wrappers.h,
lines 113-128).  The `float` and `double` specializations differ only in the
scalar type, so both are embedded by this one `α`-generic definition.  The
body is `CUSPARSE_CHECK(cusparseSetStream(handle, stream));` followed by
`return cusparse{S,D}gthr(...)`: the stream-bind status is checked, the
gather status is returned unchecked. -/
def cusparsegthr {α : Type} [Inhabited α] (env : NativeEnv) (handle : cusparseHandle_t)
    (nnz : Nat) (vals vals_sorted : List α) (d_P : List Nat) (stream : Nat) :
    List CusparseEvent × cusparseHandle_t × List α × Except cusparse_error Nat :=
  let bound := cusparseSetStream env handle stream
  match CUSPARSE_CHECK "cusparseSetStream(handle, stream)" bound.2 with
  | Except.error e =>
    ([CusparseEvent.setStream stream], bound.1, vals_sorted, Except.error e)
  | Except.ok _ =>
    ([CusparseEvent.setStream stream, CusparseEvent.gthr], bound.1,
      nativeGthr nnz vals d_P, Except.ok env.gthrStatus)

/-- Modelled from the spec: the native `cusparseXcoo2csr` (external to the
repository) converts a zero-based COO row-index list into a CSR row-pointer
array of length `m + 1`: entry `j` counts the entries whose row index is
below `j`. -/
def nativeCoo2csr (cooRowInd : List Nat) (nnz m : Nat) : List Nat :=
  (List.range (m + 1)).map
    (fun j => ((cooRowInd.take nnz).filter (fun r => decide (r < j))).length)

/-- Embedding of the `cusparsecoo2csr` specialization for `int`
(cusparse_wrappers.h, lines 138-145): checks the stream bind, then checks the
native conversion call; returns `void` on success. -/
def cusparsecoo2csr (env : NativeEnv) (handle : cusparseHandle_t)
    (cooRowInd : List Nat) (nnz m : Nat) (csrRowPtr : List Nat) (stream : Nat) :
    List CusparseEvent × cusparseHandle_t × List Nat × Except cusparse_error Unit :=
  let bound := cusparseSetStream env handle stream
  match CUSPARSE_CHECK "cusparseSetStream(handle, stream)" bound.2 with
  | Except.error e =>
    ([CusparseEvent.setStream stream], bound.1, csrRowPtr, Except.error e)
  | Except.ok _ =>
    let out := nativeCoo2csr cooRowInd nnz m
    match CUSPARSE_CHECK
        "cusparseXcoo2csr(handle, cooRowInd, nnz, m, csrRowPtr, CUSPARSE_INDEX_BASE_ZERO)"
        env.coo2csrStatus with
    | Except.error e =>
      ([CusparseEvent.setStream stream, CusparseEvent.coo2csr], bound.1, out, Except.error e)
    | Except.ok _ =>
      ([CusparseEvent.setStream stream, CusparseEvent.coo2csr], bound.1, out, Except.ok ())

/-- Embedding of the `cusparsecoosort_bufferSizeExt` specialization for `int`
(cusparse_wrappers.h, lines 156-165): checks the stream bind, then checks the
native sizing call and returns the queried byte count `val`. -/
def cusparsecoosort_bufferSizeExt (env : NativeEnv) (handle : cusparseHandle_t)
    (m n nnz : Nat) (cooRows cooCols : List Nat) (stream : Nat) :
    List CusparseEvent × cusparseHandle_t × Except cusparse_error Nat :=
  let bound := cusparseSetStream env handle stream
  match CUSPARSE_CHECK "cusparseSetStream(handle, stream)" bound.2 with
  | Except.error e => ([CusparseEvent.setStream stream], bound.1, Except.error e)
  | Except.ok _ =>
    match CUSPARSE_CHECK
        "cusparseXcoosort_bufferSizeExt(handle, m, n, nnz, cooRows, cooCols, &val)"
        env.bufferSizeStatus with
    | Except.error e =>
      ([CusparseEvent.setStream stream, CusparseEvent.coosortBufferSize], bound.1,
        Except.error e)
    | Except.ok _ =>
      ([CusparseEvent.setStream stream, CusparseEvent.coosortBufferSize], bound.1,
        Except.ok env.bufferSize)

/-- Modelled from the spec: the key relation of the native COO sort — entry
index `i` precedes entry index `j` when its row index is no larger. -/
def coosortKey (cooRows : List Nat) (i j : Nat) : Prop :=
  cooRows.getD i 0 ≤ cooRows.getD j 0

instance (cooRows : List Nat) : DecidableRel (coosortKey cooRows) :=
  fun i j => Nat.decLe (cooRows.getD i 0) (cooRows.getD j 0)

/-- Modelled from the spec: the permutation the native `cusparseXcoosortByRow`
(external to the repository) applies — a stable sort of the entry indices
`0, ..., nnz - 1` by row index. -/
def nativeCoosortPerm (nnz : Nat) (cooRows : List Nat) : List Nat :=
  (List.range nnz).insertionSort (coosortKey cooRows)

/-- Modelled from the spec: `cusparseXcoosortByRow` stably reorders the
coordinate entries by row index in place and records the applied permutation
in `P`: the sorted rows, the sorted columns, and the permutation. -/
def nativeCoosortByRow (nnz : Nat) (cooRows cooCols : List Nat) :
    List Nat × List Nat × List Nat :=
  let perm := nativeCoosortPerm nnz cooRows
  (perm.map (fun i => cooRows.getD i 0), perm.map (fun i => cooCols.getD i 0), perm)

/-- Embedding of the `cusparsecoosortByRow` specialization for `int`
(cusparse_wrappers.h, lines 171-178): checks the stream bind, then checks the
native sort call; the sort mutates `cooRows`, `cooCols` and `P` in place. -/
def cusparsecoosortByRow (env : NativeEnv) (handle : cusparseHandle_t)
    (m n nnz : Nat) (cooRows cooCols P pBuffer : List Nat) (stream : Nat) :
    List CusparseEvent × cusparseHandle_t × List Nat × List Nat × List Nat ×
      Except cusparse_error Unit :=
  let bound := cusparseSetStream env handle stream
  match CUSPARSE_CHECK "cusparseSetStream(handle, stream)" bound.2 with
  | Except.error e =>
    ([CusparseEvent.setStream stream], bound.1, cooRows, cooCols, P, Except.error e)
  | Except.ok _ =>
    let out := nativeCoosortByRow nnz cooRows cooCols
    match CUSPARSE_CHECK
        "cusparseXcoosortByRow(handle, m, n, nnz, cooRows, cooCols, P, pBuffer)"
        env.coosortStatus with
    | Except.error e =>
      ([CusparseEvent.setStream stream, CusparseEvent.coosortByRow], bound.1,
        out.1, out.2.1, out.2.2, Except.error e)
    | Except.ok _ =>
      ([CusparseEvent.setStream stream, CusparseEvent.coosortByRow], bound.1,
        out.1, out.2.1, out.2.2, Except.ok ())

/-- Embedding of the `cusparsegemmi` overloads (cusparse_wrappers.h, lines
185-198).  The `float` and `double` overloads differ only in the scalar type,
so both are embedded by this one `α`-generic definition.  The body is a
single `return cusparse{S,D}gemmi(...)`: it takes no stream parameter, never
calls `cusparseSetStream`, contains no `CUSPARSE_CHECK`, and returns the raw
native status; the dense output `C` is written by the external kernel, which
no claim consults, so only the trace, the untouched handle and the status are
returned. -/
def cusparsegemmi {α : Type} (env : NativeEnv) (handle : cusparseHandle_t)
    (m n k nnz : Nat) (alpha : α) (A : List α) (lda : Nat)
    (cscValB : List α) (cscColPtrB cscRowIndB : List Nat)
    (beta : α) (C : List α) (ldc : Nat) :
    List CusparseEvent × cusparseHandle_t × Nat :=
  ([CusparseEvent.gemmi], handle, env.gemmiStatus)

/-- The element types `cusparsegthr` is specialized for in the source:
`double` (lines 116-122) and `float` (lines 123-128); the primary template
(lines 110-112) is declared with no definition. -/
def cusparsegthrSpecializations : List String := ["double", "float"]

/-- The element types `cusparsecoo2csr` is specialized for in the source:
`int` (lines 138-145); the primary template (lines 135-137) is declared with
no definition. -/
def cusparsecoo2csrSpecializations : List String := ["int"]

/-- The element types `cusparsecoosort_bufferSizeExt` is specialized for in
the source: `int` (lines 156-165). -/
def cusparsecoosort_bufferSizeExtSpecializations : List String := ["int"]

/-- The element types `cusparsecoosortByRow` is specialized for in the
source: `int` (lines 171-178). -/
def cusparsecoosortByRowSpecializations : List String := ["int"]

/-- The element types `cusparsegemmi` has overloads for in the source:
`float` (lines 185-191) and `double` (lines 192-198); there is no generic
template at all. -/
def cusparsegemmiOverloads : List String := ["float", "double"]

/-- A Typed Dispatch Layer operation builds for element type `t` exactly
when the source declares a specialization (or overload) at `t`; a C++
template declared without a definition fails at build time for every other
instantiation. -/
def hasSpecialization (specs : List String) (t : String) : Bool :=
  specs.contains t

/-- An environment in which every native call succeeds and the sort scratch
query reports 16 bytes. -/
def envAllSuccess : NativeEnv := ⟨0, 0, 0, 0, 16, 0, 0⟩

/-- An environment in which the stream-binding call fails with
`CUSPARSE_STATUS_NOT_INITIALIZED` and every other native call succeeds. -/
def envBindFail : NativeEnv := ⟨1, 0, 0, 0, 16, 0, 0⟩

/-- An environment in which only the native gather call fails, with
`CUSPARSE_STATUS_INTERNAL_ERROR`. -/
def envGthrFail : NativeEnv := ⟨0, 7, 0, 0, 16, 0, 0⟩

/-- An environment in which only the native COO-to-CSR call fails. -/
def envCoo2csrFail : NativeEnv := ⟨0, 0, 3, 0, 16, 0, 0⟩

/-- An environment in which only the native buffer-sizing call fails. -/
def envBufferSizeFail : NativeEnv := ⟨0, 0, 0, 3, 16, 0, 0⟩

/-- An environment in which only the native COO sort call fails. -/
def envCoosortFail : NativeEnv := ⟨0, 0, 0, 0, 16, 3, 0⟩

/-- C1: `CUSPARSE_TRY`/`check` raises iff the status is not
`CUSPARSE_STATUS_SUCCESS`; on success it returns normally with no observable
effect, and on failure the raised error carries the supplied call text, the
raw numeric status, and the decoded label `cusparse_error_to_string s`. -/
theorem check_raises_iff_not_success (text : String) (s : Nat) :
    ((∃ e, CUSPARSE_TRY text s = Except.error e) ↔ s ≠ CUSPARSE_STATUS_SUCCESS) ∧
    (s = CUSPARSE_STATUS_SUCCESS → CUSPARSE_TRY text s = Except.ok ()) ∧
    (∀ e, CUSPARSE_TRY text s = Except.error e →
      e.callText = text ∧ e.status = s ∧ e.label = cusparse_error_to_string s) := by
  refine ⟨⟨?_, ?_⟩, ?_, ?_⟩
  · rintro ⟨e, he⟩ hs
    simp [CUSPARSE_TRY, hs] at he
  · intro hs
    refine ⟨⟨text, s, cusparse_error_to_string s⟩, ?_⟩
    simp [CUSPARSE_TRY, Ne.symm hs]
  · intro hs
    simp [CUSPARSE_TRY, hs]
  · intro e he
    by_cases hs : CUSPARSE_STATUS_SUCCESS ≠ s
    · simp [CUSPARSE_TRY, hs] at he
      refine ⟨?_, ?_, ?_⟩ <;> rw [← he]
    · simp [CUSPARSE_TRY, hs] at he

/-- Witness for C1 at concrete inputs: on status 3 the check raises the
error carrying the call text, the raw status, and the decoded label; on
status 0 it returns normally. -/
theorem check_raises_iff_not_success_witness :
    CUSPARSE_TRY "x" 3 = Except.error ⟨"x", 3, cusparse_error_to_string 3⟩ ∧
    CUSPARSE_TRY "x" 0 = Except.ok () := by
  constructor
  · obtain ⟨e, he⟩ := (check_raises_iff_not_success "x" 3).1.mpr (by decide)
    obtain ⟨hc, hs, hl⟩ := (check_raises_iff_not_success "x" 3).2.2 e he
    cases e
    simp only at hc hs hl
    subst hc
    subst hs
    subst hl
    exact he
  · exact (check_raises_iff_not_success "x" 0).2.1 rfl

/-- C2: the status-decoding function is a pure total Lean function; on every
status value named by the source `switch` it returns that case's canonical
name, and on every other `Nat` it returns the `"CUSPARSE_STATUS_UNKNOWN"`
sentinel. -/
theorem decode_total (s : Nat) :
    (∀ p ∈ knownCusparseStatusTable, p.1 = s → cusparse_error_to_string s = p.2) ∧
    (s ∉ knownCusparseStatusTable.map Prod.fst →
      cusparse_error_to_string s = "CUSPARSE_STATUS_UNKNOWN") := by
  constructor
  · intro p hp hps
    subst hps
    fin_cases hp <;> rfl
  · intro hs
    simp only [knownCusparseStatusTable, List.map, List.mem_cons, List.not_mem_nil] at hs
    push_neg at hs
    obtain ⟨h0, h1, h2, h3, h4, h6, h7, h8, -⟩ := hs
    simp only [cusparse_error_to_string,
      CUSPARSE_STATUS_SUCCESS, CUSPARSE_STATUS_NOT_INITIALIZED,
      CUSPARSE_STATUS_ALLOC_FAILED, CUSPARSE_STATUS_INVALID_VALUE,
      CUSPARSE_STATUS_ARCH_MISMATCH, CUSPARSE_STATUS_EXECUTION_FAILED,
      CUSPARSE_STATUS_INTERNAL_ERROR, CUSPARSE_STATUS_MATRIX_TYPE_NOT_SUPPORTED,
      h0, h1, h2, h3, h4, h6, h7, h8, if_false]

/-- Witness for C2 at concrete inputs: status 3 decodes to its canonical
name, and the out-of-enumeration values 5 and 42 decode to the unknown
sentinel. -/
theorem decode_total_witness :
    cusparse_error_to_string 3 = "CUSPARSE_STATUS_INVALID_VALUE" ∧
    cusparse_error_to_string 5 = "CUSPARSE_STATUS_UNKNOWN" ∧
    cusparse_error_to_string 42 = "CUSPARSE_STATUS_UNKNOWN" :=
  ⟨(decode_total 3).1 (3, "CUSPARSE_STATUS_INVALID_VALUE") (by decide) rfl,
   (decode_total 5).2 (by decide),
   (decode_total 42).2 (by decide)⟩

/-- C3 counterexample: the claim says every dispatched specialization in the
module — including the sparse-dense multiply — binds the caller-supplied
stream to the handle before invoking its native routine, but `cusparsegemmi`
takes no stream parameter at all: at this concrete input its call trace is
exactly the native `gemmi` call, with no `setStream` event, and the handle
passes through untouched. -/
theorem gemmi_binds_no_stream_counterexample :
    (cusparsegemmi envAllSuccess ⟨none⟩ 1 1 1 1 (1 : Int) [2] 1 [3] [0, 1] [0]
        (0 : Int) [0] 1).1 = [CusparseEvent.gemmi] ∧
    (cusparsegemmi envAllSuccess ⟨none⟩ 1 1 1 1 (1 : Int) [2] 1 [3] [0, 1] [0]
        (0 : Int) [0] 1).2.1 = cusparseHandle_t.mk none :=
  ⟨rfl, rfl⟩

/-- C3 amended: the four stream-taking specializations — gather, COO→CSR,
COO sort buffer sizing, and COO sort by row — each issue the stream bind
first, before their native routine (their trace is the `setStream` event
alone when the bind fails, and the `setStream` event followed by the native
kernel event otherwise); `cusparsegemmi` takes no stream and binds none. -/
theorem stream_bound_before_kernel {α : Type} [Inhabited α] (env : NativeEnv)
    (handle : cusparseHandle_t) (nnz m n : Nat) (vals vals_sorted : List α)
    (d_P cooRowInd csrRowPtr cooRows cooCols P pBuffer : List Nat) (stream : Nat) :
    ((cusparsegthr env handle nnz vals vals_sorted d_P stream).1 =
        [CusparseEvent.setStream stream] ∨
      (cusparsegthr env handle nnz vals vals_sorted d_P stream).1 =
        [CusparseEvent.setStream stream, CusparseEvent.gthr]) ∧
    ((cusparsecoo2csr env handle cooRowInd nnz m csrRowPtr stream).1 =
        [CusparseEvent.setStream stream] ∨
      (cusparsecoo2csr env handle cooRowInd nnz m csrRowPtr stream).1 =
        [CusparseEvent.setStream stream, CusparseEvent.coo2csr]) ∧
    ((cusparsecoosort_bufferSizeExt env handle m n nnz cooRows cooCols stream).1 =
        [CusparseEvent.setStream stream] ∨
      (cusparsecoosort_bufferSizeExt env handle m n nnz cooRows cooCols stream).1 =
        [CusparseEvent.setStream stream, CusparseEvent.coosortBufferSize]) ∧
    ((cusparsecoosortByRow env handle m n nnz cooRows cooCols P pBuffer stream).1 =
        [CusparseEvent.setStream stream] ∨
      (cusparsecoosortByRow env handle m n nnz cooRows cooCols P pBuffer stream).1 =
        [CusparseEvent.setStream stream, CusparseEvent.coosortByRow]) := by
  refine ⟨?_, ?_, ?_, ?_⟩
  · unfold cusparsegthr
    cases h : CUSPARSE_CHECK "cusparseSetStream(handle, stream)"
        (cusparseSetStream env handle stream).2 <;> simp [h]
  · unfold cusparsecoo2csr
    cases h : CUSPARSE_CHECK "cusparseSetStream(handle, stream)"
        (cusparseSetStream env handle stream).2 <;> simp only [h]
    · simp
    · cases h2 : CUSPARSE_CHECK
          "cusparseXcoo2csr(handle, cooRowInd, nnz, m, csrRowPtr, CUSPARSE_INDEX_BASE_ZERO)"
          env.coo2csrStatus <;> simp [h2]
  · unfold cusparsecoosort_bufferSizeExt
    cases h : CUSPARSE_CHECK "cusparseSetStream(handle, stream)"
        (cusparseSetStream env handle stream).2 <;> simp only [h]
    · simp
    · cases h2 : CUSPARSE_CHECK
          "cusparseXcoosort_bufferSizeExt(handle, m, n, nnz, cooRows, cooCols, &val)"
          env.bufferSizeStatus <;> simp [h2]
  · unfold cusparsecoosortByRow
    cases h : CUSPARSE_CHECK "cusparseSetStream(handle, stream)"
        (cusparseSetStream env handle stream).2 <;> simp only [h]
    · simp
    · cases h2 : CUSPARSE_CHECK
          "cusparseXcoosortByRow(handle, m, n, nnz, cooRows, cooCols, P, pBuffer)"
          env.coosortStatus <;> simp [h2]

/-- C4 counterexample: the claim says the status produced by the native
gather routine is checked internally and funnels any non-success value
through the Error Translation Layer, but the source returns
`cusparse{S,D}gthr(...)` without wrapping it in `CUSPARSE_CHECK`: in an
environment where the stream bind succeeds and the native gather fails with
`CUSPARSE_STATUS_INTERNAL_ERROR` (7), the wrapper returns normally with the
raw status 7 instead of raising. -/
theorem gthr_status_unchecked_counterexample :
    (cusparsegthr envGthrFail ⟨none⟩ 2 [10, 20] ([0, 0] : List Int) [1, 0] 5).2.2.2 =
      Except.ok 7 ∧ (7 : Nat) ≠ CUSPARSE_STATUS_SUCCESS :=
  ⟨rfl, by decide⟩

/-- C4 amended: for both supported element types, whenever the stream bind
succeeds `cusparsegthr` returns the status produced by the native gather
routine raw to the caller for composability; that status is never checked
internally (only the stream-binding call is funneled through the Error
Translation Layer), so a failing gather does not raise. -/
theorem gthr_returns_raw_status {α : Type} [Inhabited α] (env : NativeEnv)
    (handle : cusparseHandle_t) (nnz : Nat) (vals vals_sorted : List α)
    (d_P : List Nat) (stream : Nat)
    (hbind : env.setStreamStatus = CUSPARSE_STATUS_SUCCESS) :
    (cusparsegthr env handle nnz vals vals_sorted d_P stream).2.2.2 =
      Except.ok env.gthrStatus := by
  simp [cusparsegthr, cusparseSetStream, CUSPARSE_CHECK, CUSPARSE_TRY, hbind]

/-- Witness for the amended C4: in the environment where the native gather
fails with status 7 but the bind succeeds, the wrapper returns `ok 7`. -/
theorem gthr_returns_raw_status_witness :
    (cusparsegthr envGthrFail ⟨none⟩ 2 [10, 20] ([0, 0] : List Int) [1, 0] 5).2.2.2 =
      Except.ok envGthrFail.gthrStatus :=
  gthr_returns_raw_status envGthrFail ⟨none⟩ 2 [10, 20] ([0, 0] : List Int) [1, 0] 5
    (by decide)

/-- C5: `cusparsegemmi` hands the raw status of the native gemmi routine
straight back to the caller for every element type and environment, issuing
only the native gemmi call; its embedding has no error-typed result at all
because the source contains no `CUSPARSE_CHECK`, so it can never raise —
unlike every other operation in the module, each of which contains a
`CUSPARSE_CHECK` and raises in a suitable environment, as the four
existential conjuncts show. -/
theorem gemmi_raw_status_never_raises {α : Type} (env : NativeEnv)
    (handle : cusparseHandle_t) (m n k nnz : Nat) (alpha : α) (A : List α)
    (lda : Nat) (cscValB : List α) (cscColPtrB cscRowIndB : List Nat)
    (beta : α) (C : List α) (ldc : Nat) :
    cusparsegemmi env handle m n k nnz alpha A lda cscValB cscColPtrB cscRowIndB
        beta C ldc = ([CusparseEvent.gemmi], handle, env.gemmiStatus) ∧
    (∃ e, (cusparsegthr envBindFail ⟨none⟩ 1 [0] ([0] : List Int) [0] 0).2.2.2 =
      Except.error e) ∧
    (∃ e, (cusparsecoo2csr envCoo2csrFail ⟨none⟩ [0] 1 1 [0, 0] 0).2.2.2 =
      Except.error e) ∧
    (∃ e, (cusparsecoosort_bufferSizeExt envBufferSizeFail ⟨none⟩ 1 1 1 [0] [0] 0).2.2 =
      Except.error e) ∧
    (∃ e, (cusparsecoosortByRow envCoosortFail ⟨none⟩ 1 1 1 [0] [0] [0] [] 0).2.2.2.2.2 =
      Except.error e) := by
  refine ⟨rfl,
    ⟨⟨"cusparseSetStream(handle, stream)", 1, cusparse_error_to_string 1⟩, rfl⟩,
    ⟨⟨"cusparseXcoo2csr(handle, cooRowInd, nnz, m, csrRowPtr, CUSPARSE_INDEX_BASE_ZERO)",
      3, cusparse_error_to_string 3⟩, rfl⟩,
    ⟨⟨"cusparseXcoosort_bufferSizeExt(handle, m, n, nnz, cooRows, cooCols, &val)",
      3, cusparse_error_to_string 3⟩, rfl⟩,
    ⟨⟨"cusparseXcoosortByRow(handle, m, n, nnz, cooRows, cooCols, P, pBuffer)",
      3, cusparse_error_to_string 3⟩, rfl⟩⟩

/-- C6: with a successful stream bind, the destination array `cusparsegthr`
produces satisfies `vals_sorted[i] = vals[d_P[i]]` with zero-based indexing
for every `i < nnz`. -/
theorem gthr_correct {α : Type} [Inhabited α] (env : NativeEnv)
    (handle : cusparseHandle_t) (nnz i : Nat) (vals vals_sorted : List α)
    (d_P : List Nat) (stream : Nat)
    (hbind : env.setStreamStatus = CUSPARSE_STATUS_SUCCESS)
    (hi : i < nnz) (hp : d_P.getD i 0 < vals.length) :
    ((cusparsegthr env handle nnz vals vals_sorted d_P stream).2.2.1)[i]? =
      some (vals.get ⟨d_P.getD i 0, hp⟩) := by
  have hout : (cusparsegthr env handle nnz vals vals_sorted d_P stream).2.2.1 =
      nativeGthr nnz vals d_P := by
    simp [cusparsegthr, cusparseSetStream, CUSPARSE_CHECK, CUSPARSE_TRY, hbind]
  rw [hout, nativeGthr, List.getElem?_map, List.getElem?_range hi, Option.map_some']
  rw [List.getD_eq_getElem vals default hp, List.get_eq_getElem]

/-- Witness for C6 at the example of the spec: `vals = [10, 20, 30, 40]`,
`P = [3, 1, 0, 2]`, `nnz = 4` gathers to `[40, 20, 10, 30]`; the pointwise
fact at `i = 0` comes from the theorem, the full output list by
evaluation. -/
theorem gthr_correct_witness :
    ((cusparsegthr envAllSuccess ⟨none⟩ 4 [10, 20, 30, 40] ([0, 0, 0, 0] : List Int)
        [3, 1, 0, 2] 5).2.2.1)[0]? = some 40 ∧
    (cusparsegthr envAllSuccess ⟨none⟩ 4 [10, 20, 30, 40] ([0, 0, 0, 0] : List Int)
        [3, 1, 0, 2] 5).2.2.1 = [40, 20, 10, 30] := by
  constructor
  · have h := gthr_correct envAllSuccess ⟨none⟩ 4 0 [10, 20, 30, 40]
      ([0, 0, 0, 0] : List Int) [3, 1, 0, 2] 5 (by decide) (by decide) (by decide)
    exact h.trans (by decide)
  · decide

/-- Counting the entries of a list below a bound is monotone in the
bound. -/
theorem length_filter_lt_mono (l : List Nat) {j k : Nat} (h : j ≤ k) :
    (l.filter (fun r => decide (r < j))).length ≤
      (l.filter (fun r => decide (r < k))).length := by
  induction l with
  | nil => simp
  | cons a t ih =>
    by_cases ha : a < j
    · have hak : a < k := Nat.lt_of_lt_of_le ha h
      simp [List.filter_cons, ha, hak, Nat.succ_le_succ ih]
    · by_cases hak : a < k
      · rw [List.filter_cons, List.filter_cons, if_neg (by simpa using ha),
          if_pos (by simpa using hak), List.length_cons]
        exact Nat.le_succ_of_le ih
      · simp [List.filter_cons, ha, hak, ih]

/-- C7: with both native calls succeeding, for a valid zero-based COO
row-index array of length `nnz` over `m` rows the CSR row-pointer array
`cusparsecoo2csr` produces has length `m + 1`, is non-decreasing, starts at
0, and ends at `nnz`. -/
theorem coo2csr_shape (env : NativeEnv) (handle : cusparseHandle_t)
    (cooRowInd : List Nat) (nnz m : Nat) (csrRowPtr : List Nat) (stream : Nat)
    (hbind : env.setStreamStatus = CUSPARSE_STATUS_SUCCESS)
    (hconv : env.coo2csrStatus = CUSPARSE_STATUS_SUCCESS)
    (hlen : cooRowInd.length = nnz)
    (hrows : ∀ r ∈ cooRowInd, r < m) :
    (cusparsecoo2csr env handle cooRowInd nnz m csrRowPtr stream).2.2.1.length = m + 1 ∧
    (cusparsecoo2csr env handle cooRowInd nnz m csrRowPtr stream).2.2.1.getD 0 0 = 0 ∧
    (cusparsecoo2csr env handle cooRowInd nnz m csrRowPtr stream).2.2.1.getD m 0 = nnz ∧
    List.Sorted (· ≤ ·)
      (cusparsecoo2csr env handle cooRowInd nnz m csrRowPtr stream).2.2.1 ∧
    (cusparsecoo2csr env handle cooRowInd nnz m csrRowPtr stream).2.2.2 =
      Except.ok () := by
  have hred : cusparsecoo2csr env handle cooRowInd nnz m csrRowPtr stream =
      ([CusparseEvent.setStream stream, CusparseEvent.coo2csr], ⟨some stream⟩,
        nativeCoo2csr cooRowInd nnz m, Except.ok ()) := by
    simp [cusparsecoo2csr, cusparseSetStream, CUSPARSE_CHECK, CUSPARSE_TRY, hbind, hconv]
  rw [hred]
  have htake : cooRowInd.take nnz = cooRowInd := by
    rw [← hlen]
    exact List.take_length cooRowInd
  refine ⟨by simp [nativeCoo2csr], ?_, ?_, ?_, rfl⟩
  · rw [nativeCoo2csr, List.getD_eq_getElem?_getD, List.getElem?_map,
      List.getElem?_range (Nat.succ_pos m), Option.map_some']
    simp
  · rw [nativeCoo2csr, List.getD_eq_getElem?_getD, List.getElem?_map,
      List.getElem?_range (Nat.lt_succ_self m), Option.map_some']
    rw [htake]
    have hall : cooRowInd.filter (fun r => decide (r < m)) = cooRowInd :=
      List.filter_eq_self.mpr (fun a ha => by simpa using hrows a ha)
    simp [hall, hlen]
  · rw [nativeCoo2csr]
    exact List.pairwise_map.mpr
      ((List.pairwise_lt_range (m + 1)).imp
        (fun hab => length_filter_lt_mono _ (Nat.le_of_lt hab)))

/-- Witness for C7 at `cooRowInd = [1, 0, 1]`, `nnz = 3`, `m = 2`: the
produced row-pointer array is `[0, 1, 3]` — length 3, non-decreasing, starts
at 0, ends at `nnz = 3`. -/
theorem coo2csr_shape_witness :
    (cusparsecoo2csr envAllSuccess ⟨none⟩ [1, 0, 1] 3 2 [0, 0, 0] 9).2.2.1.length = 3 ∧
    (cusparsecoo2csr envAllSuccess ⟨none⟩ [1, 0, 1] 3 2 [0, 0, 0] 9).2.2.1 = [0, 1, 3] ∧
    (cusparsecoo2csr envAllSuccess ⟨none⟩ [1, 0, 1] 3 2 [0, 0, 0] 9).2.2.1.getD 2 0 = 3 ∧
    List.Sorted (· ≤ ·)
      (cusparsecoo2csr envAllSuccess ⟨none⟩ [1, 0, 1] 3 2 [0, 0, 0] 9).2.2.1 ∧
    (cusparsecoo2csr envAllSuccess ⟨none⟩ [1, 0, 1] 3 2 [0, 0, 0] 9).2.2.2 =
      Except.ok () := by
  have h := coo2csr_shape envAllSuccess ⟨none⟩ [1, 0, 1] 3 2 [0, 0, 0] 9 rfl rfl rfl
    (by decide)
  exact ⟨h.1, by decide, h.2.2.1, h.2.2.2.1, h.2.2.2.2⟩

/-- C8: with both native calls succeeding, after `cusparsecoosortByRow` the
row-index array is non-decreasing, the recorded permutation `P` is a
permutation of `0, ..., nnz - 1`, and applying `P` to the original column
array reproduces the sorted column array exactly:
`cols_sorted[i] = cols_original[P[i]]` for every `i < nnz`. -/
theorem coosortByRow_sorted (env : NativeEnv) (handle : cusparseHandle_t)
    (m n nnz : Nat) (cooRows cooCols P pBuffer : List Nat) (stream : Nat)
    (hbind : env.setStreamStatus = CUSPARSE_STATUS_SUCCESS)
    (hsort : env.coosortStatus = CUSPARSE_STATUS_SUCCESS) :
    List.Sorted (· ≤ ·)
      (cusparsecoosortByRow env handle m n nnz cooRows cooCols P pBuffer stream).2.2.1 ∧
    (cusparsecoosortByRow env handle m n nnz cooRows cooCols P pBuffer
      stream).2.2.2.2.1.Perm (List.range nnz) ∧
    (∀ i, i < nnz →
      (cusparsecoosortByRow env handle m n nnz cooRows cooCols P pBuffer
          stream).2.2.2.1.getD i 0 =
        cooCols.getD
          ((cusparsecoosortByRow env handle m n nnz cooRows cooCols P pBuffer
            stream).2.2.2.2.1.getD i 0) 0) ∧
    (cusparsecoosortByRow env handle m n nnz cooRows cooCols P pBuffer
      stream).2.2.2.2.2 = Except.ok () := by
  haveI htot : IsTotal Nat (coosortKey cooRows) :=
    ⟨fun i j => Nat.le_total (cooRows.getD i 0) (cooRows.getD j 0)⟩
  haveI htrans : IsTrans Nat (coosortKey cooRows) :=
    ⟨fun i j k hij hjk => Nat.le_trans hij hjk⟩
  have hperm : (nativeCoosortPerm nnz cooRows).Perm (List.range nnz) :=
    List.perm_insertionSort (coosortKey cooRows) (List.range nnz)
  have hsorted : List.Sorted (coosortKey cooRows) (nativeCoosortPerm nnz cooRows) :=
    List.sorted_insertionSort (coosortKey cooRows) (List.range nnz)
  have hlenP : (nativeCoosortPerm nnz cooRows).length = nnz := by
    rw [hperm.length_eq, List.length_range]
  have hred : cusparsecoosortByRow env handle m n nnz cooRows cooCols P pBuffer stream =
      ([CusparseEvent.setStream stream, CusparseEvent.coosortByRow], ⟨some stream⟩,
        (nativeCoosortPerm nnz cooRows).map (fun i => cooRows.getD i 0),
        (nativeCoosortPerm nnz cooRows).map (fun i => cooCols.getD i 0),
        nativeCoosortPerm nnz cooRows, Except.ok ()) := by
    simp [cusparsecoosortByRow, nativeCoosortByRow, cusparseSetStream,
      CUSPARSE_CHECK, CUSPARSE_TRY, hbind, hsort]
  rw [hred]
  refine ⟨List.pairwise_map.mpr hsorted, hperm, ?_, rfl⟩
  intro i hi
  have hi2 : i < (nativeCoosortPerm nnz cooRows).length := by
    rw [hlenP]
    exact hi
  rw [List.getD_eq_getElem?_getD, List.getElem?_map, List.getElem?_eq_getElem hi2,
    Option.map_some', Option.getD_some,
    List.getD_eq_getElem (nativeCoosortPerm nnz cooRows) 0 hi2]

/-- Witness for C8 at `rows = [2, 1, 2]`, `cols = [7, 8, 9]`, `nnz = 3`: the
sort returns rows `[1, 2, 2]` (non-decreasing), permutation `[1, 0, 2]`, and
columns `[8, 7, 9]`, which equals the original columns gathered through the
permutation. -/
theorem coosortByRow_sorted_witness :
    List.Sorted (· ≤ ·)
      (cusparsecoosortByRow envAllSuccess ⟨none⟩ 3 10 3 [2, 1, 2] [7, 8, 9]
        [0, 1, 2] [] 4).2.2.1 ∧
    (cusparsecoosortByRow envAllSuccess ⟨none⟩ 3 10 3 [2, 1, 2] [7, 8, 9]
      [0, 1, 2] [] 4).2.2.2.2.1.Perm (List.range 3) ∧
    (cusparsecoosortByRow envAllSuccess ⟨none⟩ 3 10 3 [2, 1, 2] [7, 8, 9]
        [0, 1, 2] [] 4).2.2.2.1.getD 0 0 =
      List.getD [7, 8, 9]
        ((cusparsecoosortByRow envAllSuccess ⟨none⟩ 3 10 3 [2, 1, 2] [7, 8, 9]
          [0, 1, 2] [] 4).2.2.2.2.1.getD 0 0) 0 ∧
    (cusparsecoosortByRow envAllSuccess ⟨none⟩ 3 10 3 [2, 1, 2] [7, 8, 9]
      [0, 1, 2] [] 4).2.2.1 = [1, 2, 2] ∧
    (cusparsecoosortByRow envAllSuccess ⟨none⟩ 3 10 3 [2, 1, 2] [7, 8, 9]
      [0, 1, 2] [] 4).2.2.2.2.1 = [1, 0, 2] ∧
    (cusparsecoosortByRow envAllSuccess ⟨none⟩ 3 10 3 [2, 1, 2] [7, 8, 9]
      [0, 1, 2] [] 4).2.2.2.2.2 = Except.ok () := by
  have h := coosortByRow_sorted envAllSuccess ⟨none⟩ 3 10 3 [2, 1, 2] [7, 8, 9]
    [0, 1, 2] [] 4 rfl rfl
  exact ⟨h.1, h.2.1, h.2.2.1 0 (by decide), by decide, by decide, h.2.2.2⟩

/-- C9: each Typed Dispatch Layer operation has specializations for exactly
the element types the source declares — `double`/`float` for the
value-bearing gather and gemmi, `int` for the structural conversion and sort
operations.  The primary templates are declared with no definition, so a C++
instantiation at any element type outside these lists has no implementation
and fails at build time; no compiled runtime path exists for it to fail in at
runtime. -/
theorem unsupported_type_fails_to_build (t : String) :
    (hasSpecialization cusparsegthrSpecializations t = true ↔
      t = "double" ∨ t = "float") ∧
    (hasSpecialization cusparsecoo2csrSpecializations t = true ↔ t = "int") ∧
    (hasSpecialization cusparsecoosort_bufferSizeExtSpecializations t = true ↔
      t = "int") ∧
    (hasSpecialization cusparsecoosortByRowSpecializations t = true ↔ t = "int") ∧
    (hasSpecialization cusparsegemmiOverloads t = true ↔
      t = "float" ∨ t = "double") := by
  refine ⟨?_, ?_, ?_, ?_, ?_⟩ <;>
    simp [hasSpecialization, cusparsegthrSpecializations,
      cusparsecoo2csrSpecializations, cusparsecoosort_bufferSizeExtSpecializations,
      cusparsecoosortByRowSpecializations, cusparsegemmiOverloads]

/-- Witness for C9 at concrete element types: `int` has no gather
specialization, `float` has no COO→CSR specialization, and `float` does have
a gather specialization. -/
theorem unsupported_type_fails_to_build_witness :
    hasSpecialization cusparsegthrSpecializations "int" = false ∧
    hasSpecialization cusparsecoo2csrSpecializations "float" = false ∧
    hasSpecialization cusparsegthrSpecializations "float" = true := by
  refine ⟨?_, ?_, ?_⟩
  · have h := (unsupported_type_fails_to_build "int").1
    simp only [show ¬("int" = "double" ∨ "int" = "float") from by decide,
      iff_false] at h
    exact Bool.eq_false_iff.mpr h
  · have h := (unsupported_type_fails_to_build "float").2.1
    simp only [show ¬("float" = "int") from by decide, iff_false] at h
    exact Bool.eq_false_iff.mpr h
  · exact (unsupported_type_fails_to_build "float").1.mpr (Or.inr rfl)

/-- C10: whenever the stream-binding call fails, each of the four
stream-taking wrappers raises the error from the bind before its native
routine is invoked: the trace stops at the `setStream` event — the kernel is
never issued on a handle whose stream binding failed — and the operation's
output buffers come back untouched. -/
theorem bind_failure_stops_operation {α : Type} [Inhabited α] (env : NativeEnv)
    (handle : cusparseHandle_t) (nnz m n : Nat) (vals vals_sorted : List α)
    (d_P cooRowInd csrRowPtr cooRows cooCols P pBuffer : List Nat) (stream : Nat)
    (hfail : env.setStreamStatus ≠ CUSPARSE_STATUS_SUCCESS) :
    cusparsegthr env handle nnz vals vals_sorted d_P stream =
      ([CusparseEvent.setStream stream], ⟨some stream⟩, vals_sorted,
        Except.error ⟨"cusparseSetStream(handle, stream)", env.setStreamStatus,
          cusparse_error_to_string env.setStreamStatus⟩) ∧
    cusparsecoo2csr env handle cooRowInd nnz m csrRowPtr stream =
      ([CusparseEvent.setStream stream], ⟨some stream⟩, csrRowPtr,
        Except.error ⟨"cusparseSetStream(handle, stream)", env.setStreamStatus,
          cusparse_error_to_string env.setStreamStatus⟩) ∧
    cusparsecoosort_bufferSizeExt env handle m n nnz cooRows cooCols stream =
      ([CusparseEvent.setStream stream], ⟨some stream⟩,
        Except.error ⟨"cusparseSetStream(handle, stream)", env.setStreamStatus,
          cusparse_error_to_string env.setStreamStatus⟩) ∧
    cusparsecoosortByRow env handle m n nnz cooRows cooCols P pBuffer stream =
      ([CusparseEvent.setStream stream], ⟨some stream⟩, cooRows, cooCols, P,
        Except.error ⟨"cusparseSetStream(handle, stream)", env.setStreamStatus,
          cusparse_error_to_string env.setStreamStatus⟩) := by
  have hne : CUSPARSE_STATUS_SUCCESS ≠ env.setStreamStatus := Ne.symm hfail
  refine ⟨?_, ?_, ?_, ?_⟩ <;>
    simp [cusparsegthr, cusparsecoo2csr, cusparsecoosort_bufferSizeExt,
      cusparsecoosortByRow, cusparseSetStream, CUSPARSE_CHECK, CUSPARSE_TRY, hne]

/-- Witness for C10: in the environment whose stream bind fails with status
1, the gather wrapper stops at the `setStream` event, raises the bind error,
and leaves the destination buffer `[1, 2]` untouched. -/
theorem bind_failure_stops_operation_witness :
    envBindFail.setStreamStatus ≠ CUSPARSE_STATUS_SUCCESS ∧
    cusparsegthr envBindFail ⟨none⟩ 2 [10, 20] ([1, 2] : List Int) [1, 0] 5 =
      ([CusparseEvent.setStream 5], ⟨some 5⟩, [1, 2],
        Except.error ⟨"cusparseSetStream(handle, stream)", 1,
          cusparse_error_to_string 1⟩) :=
  ⟨by decide,
    (bind_failure_stops_operation envBindFail ⟨none⟩ 2 3 4 [10, 20]
      ([1, 2] : List Int) [1, 0] [] [] [] [] [] [] 5 (by decide)).1⟩
